import Mathlib

/-!
Verification of the quantitative core of the AutoCbot trading backend
against its natural-language specification.

The development shallowly embeds three Python modules:
  - src/backend/utils/metrics.py           (performance-metrics engine)
  - src/backend/services/backtest_engine.py (backtest simulation engine)
  - src/backend/services/risk_manager.py    (risk / position-sizing engine)

Numeric modelling: Python floats are modelled as exact rationals.  The
metrics module can also produce IEEE non-finite values, which the source
manipulates deliberately (pandas std of a length-one sample is NaN,
float inf is returned for zero-loss denominators), so metric results
live in the type MVal below: MVal.nan models float NaN, MVal.inf models
float inf, and MVal.fin a b models the finite real number a * sqrt b
(with b taken nonnegative; a plain rational x is MVal.fin x 1).  The
square-root component is needed because the Sharpe and Sortino ratios
divide by a sample standard deviation and multiply by the square root
of periods_per_year; every finite value produced by the module has the
form a * sqrt b with a and b rational.
-/

/-- Values produced by the metrics module: NaN, inf, or a finite a * sqrt b. -/
inductive MVal
  | nan : MVal
  | inf : MVal
  | fin : ℚ → ℚ → MVal
deriving DecidableEq, Repr

namespace MVal

/-- Equality test against float 0.0 as Python would perform it: NaN == 0 and
inf == 0 are false; a finite a * sqrt b is zero iff a = 0 or b = 0. -/
def isZero : MVal → Bool
  | .fin a b => decide (a = 0 ∨ b = 0)
  | _ => false

/-- Division of metric values.  NaN propagates (Python float arithmetic);
a finite quotient (a sqrt b) / (c sqrt d) is (a/c) sqrt (b/d).  Division by
an exact zero never happens in the guarded source paths; it is mapped to NaN. -/
def divM : MVal → MVal → MVal
  | _, .nan => .nan
  | .nan, _ => .nan
  | .inf, _ => .inf
  | _, .inf => .fin 0 1
  | .fin a b, .fin c d => if c = 0 ∨ d = 0 then .nan else .fin (a / c) (b / d)

/-- Multiplication by sqrt p (the annualization step): (a sqrt b) * sqrt p
is a * sqrt (b * p); NaN and inf propagate. -/
def mulSqrt : MVal → ℚ → MVal
  | .nan, _ => .nan
  | .inf, _ => .inf
  | .fin a b, p => .fin a (b * p)

end MVal

/-- Arithmetic mean of a list (sum / len), as np.mean / pandas mean. -/
def meanQ (xs : List ℚ) : ℚ := xs.sum / (xs.length : ℚ)

/-- Sample variance with ddof = 1 (the pandas default used by .std()). -/
def sampleVarQ (xs : List ℚ) : ℚ :=
  ((xs.map (fun x => (x - meanQ xs) ^ 2)).sum) / ((xs.length : ℚ) - 1)

/-- Sample standard deviation as pandas Series.std(): NaN when fewer than two
samples are present (ddof = 1), otherwise sqrt of the sample variance. -/
def pdStd (xs : List ℚ) : MVal :=
  if xs.length ≤ 1 then .nan else .fin 1 (sampleVarQ xs)

/-- Insertion step of the ascending sort used to model np.percentile. -/
def insertSorted (x : ℚ) : List ℚ → List ℚ
  | [] => [x]
  | y :: ys => if x ≤ y then x :: y :: ys else y :: insertSorted x ys

/-- Ascending insertion sort over rationals. -/
def sortQ (l : List ℚ) : List ℚ := l.foldr insertSorted []

/-- np.percentile with the default linear interpolation: the virtual index is
q/100 * (n-1); the result interpolates between the neighbouring order
statistics.  The source only calls this on nonempty data. -/
def percentileQ (l : List ℚ) (q : ℚ) : ℚ :=
  let s := sortQ l
  let n := s.length
  if n = 0 then 0 else
  let pos := q * ((n : ℚ) - 1) / 100
  let i := Int.toNat ⌊pos⌋
  let frac := pos - (i : ℚ)
  let xi := s.getD i 0
  let xj := s.getD (i + 1) xi
  xi + frac * (xj - xi)

/-- Largest element of a list (Python max), 0 on the empty list (guarded). -/
def maxListQ : List ℚ → ℚ
  | [] => 0
  | x :: xs => xs.foldl max x

/-- Smallest element of a list (Python min), 0 on the empty list (guarded). -/
def minListQ : List ℚ → ℚ
  | [] => 0
  | x :: xs => xs.foldl min x

/-- metrics.calculate_returns: equity_curve.pct_change().dropna() — the
period-over-period relative change, with the first undefined element dropped. -/
def calculate_returns (equity_curve : List ℚ) : List ℚ :=
  (equity_curve.zip (equity_curve.drop 1)).map (fun ab => (ab.2 - ab.1) / ab.1)

/-- metrics.calculate_sharpe_ratio (src/backend/utils/metrics.py lines 30-67). -/
def calculate_sharpe_ratio (returns : List ℚ) (risk_free_rate : ℚ)
    (periods_per_year : ℚ) : MVal :=
  if returns.length = 0 then .fin 0 1 else
  let period_risk_free_rate := risk_free_rate / periods_per_year
  let excess_returns := returns.map (fun r => r - period_risk_free_rate)
  let std := pdStd excess_returns
  if std.isZero then .fin 0 1
  else ((MVal.fin (meanQ excess_returns) 1).divM std).mulSqrt periods_per_year

/-- metrics.calculate_sortino_ratio (src/backend/utils/metrics.py lines 70-111). -/
def calculate_sortino_ratio (returns : List ℚ) (target_return : ℚ)
    (periods_per_year : ℚ) : MVal :=
  if returns.length = 0 then .fin 0 1 else
  let downside_returns := returns.filter (fun r => r < target_return)
  if downside_returns.length = 0 then .fin 0 1 else
  let downside_std := pdStd downside_returns
  if downside_std.isZero then .fin 0 1
  else ((MVal.fin (meanQ returns - target_return) 1).divM downside_std).mulSqrt
    periods_per_year

/-- Running maximum of a list after seeding with m (pandas expanding().max()). -/
def runningMaxAux (m : ℚ) : List ℚ → List ℚ
  | [] => []
  | x :: xs => (max m x) :: runningMaxAux (max m x) xs

/-- Running maximum of a list (pandas expanding().max()). -/
def runningMax : List ℚ → List ℚ
  | [] => []
  | x :: xs => x :: runningMaxAux x xs

/-- Result record of metrics.calculate_max_drawdown.  The two date fields of
the source dict are omitted: they are never read by calculate_all_metrics
and no claim concerns them. -/
structure DrawdownMetrics where
  max_drawdown : ℚ
  max_drawdown_duration : ℕ
deriving DecidableEq, Repr

/-- metrics.calculate_max_drawdown (src/backend/utils/metrics.py lines
114-169): drawdown = (equity - running_max) / running_max; max drawdown is its
minimum; the duration is the longest run of strictly negative drawdowns. -/
def calculate_max_drawdown (equity_curve : List ℚ) : DrawdownMetrics :=
  if equity_curve.length = 0 then ⟨0, 0⟩ else
  let running_max := runningMax equity_curve
  let drawdown := (equity_curve.zip running_max).map
    (fun em => (em.1 - em.2) / em.2)
  let max_dd := minListQ drawdown
  let duration := (drawdown.foldl
    (fun md d => if d < 0 then (max md.1 (md.2 + 1), md.2 + 1) else (md.1, 0))
    ((0 : ℕ), (0 : ℕ))).1
  ⟨max_dd, duration⟩

/-- metrics.calculate_calmar_ratio (src/backend/utils/metrics.py lines 172-209). -/
def calculate_calmar_ratio (returns : List ℚ) (equity_curve : List ℚ)
    (periods_per_year : ℚ) : MVal :=
  if returns.length = 0 then .fin 0 1 else
  let annualized_return := meanQ returns * periods_per_year
  let max_dd := |(calculate_max_drawdown equity_curve).max_drawdown|
  if max_dd = 0 then .fin 0 1 else .fin (annualized_return / max_dd) 1

/-- metrics.calculate_profit_factor (src/backend/utils/metrics.py lines 212-234). -/
def calculate_profit_factor (wins losses : List ℚ) : MVal :=
  if wins.isEmpty || losses.isEmpty then .fin 0 1 else
  let gross_profit := wins.sum
  let gross_loss := |losses.sum|
  if gross_loss = 0 then (if gross_profit > 0 then .inf else .fin 0 1)
  else .fin (gross_profit / gross_loss) 1

/-- metrics.calculate_expectancy (src/backend/utils/metrics.py lines 237-258). -/
def calculate_expectancy (win_rate avg_win avg_loss : ℚ) : ℚ :=
  (win_rate * avg_win) - ((1 - win_rate) * |avg_loss|)

/-- metrics.calculate_var (src/backend/utils/metrics.py lines 261-285). -/
def calculate_var (returns : List ℚ) (confidence : ℚ) : ℚ :=
  if returns.length = 0 then 0 else percentileQ returns ((1 - confidence) * 100)

/-- metrics.calculate_cvar (src/backend/utils/metrics.py lines 288-320). -/
def calculate_cvar (returns : List ℚ) (confidence : ℚ) : ℚ :=
  if returns.length = 0 then 0 else
  let var := calculate_var returns confidence
  let tail_returns := returns.filter (fun r => r ≤ var)
  if tail_returns.length = 0 then var else meanQ tail_returns

/-- metrics.calculate_omega_ratio (src/backend/utils/metrics.py lines 323-355). -/
def calculate_omega_ratio (returns : List ℚ) (threshold : ℚ) : MVal :=
  if returns.length = 0 then .fin 0 1 else
  let gains := (returns.filter (fun r => r > threshold)).map
    (fun r => r - threshold)
  let losses := (returns.filter (fun r => r < threshold)).map
    (fun r => threshold - r)
  if losses.length = 0 ∨ losses.sum = 0 then
    (if gains.length > 0 then .inf else .fin 0 1)
  else .fin (gains.sum / losses.sum) 1

/-- metrics.calculate_recovery_factor (src/backend/utils/metrics.py lines 358-381). -/
def calculate_recovery_factor (total_return max_drawdown : ℚ) : ℚ :=
  let max_dd_abs := |max_drawdown|
  if max_dd_abs = 0 then 0 else total_return / max_dd_abs

/-- metrics.calculate_tail_ratio (src/backend/utils/metrics.py lines 384-411). -/
def calculate_tail_ratio (returns : List ℚ) : MVal :=
  if returns.length = 0 then .fin 0 1 else
  let right_tail := percentileQ returns 95
  let left_tail := |percentileQ returns 5|
  if left_tail = 0 then .fin 0 1 else .fin (right_tail / left_tail) 1

/-- metrics.calculate_all_metrics (src/backend/utils/metrics.py lines 414-547).
Each trade dict is read only through its pnl key, so the trades argument is
the list of realized P&L values.  The result dict is modelled as an
association list in the source's key order. -/
def calculate_all_metrics (equity_curve : List ℚ) (trades : List ℚ)
    (initial_capital : ℚ) (risk_free_rate : ℚ) (periods_per_year : ℚ) :
    List (String × MVal) :=
  let total_trades := trades.length
  if total_trades = 0 then
    [("total_trades", .fin 0 1),
     ("winning_trades", .fin 0 1),
     ("losing_trades", .fin 0 1),
     ("win_rate", .fin 0 1),
     ("total_return", .fin 0 1),
     ("total_return_pct", .fin 0 1),
     ("sharpe_ratio", .fin 0 1),
     ("sortino_ratio", .fin 0 1),
     ("max_drawdown", .fin 0 1),
     ("max_drawdown_duration", .fin 0 1),
     ("calmar_ratio", .fin 0 1),
     ("profit_factor", .fin 0 1),
     ("expectancy", .fin 0 1),
     ("avg_win", .fin 0 1),
     ("avg_loss", .fin 0 1),
     ("largest_win", .fin 0 1),
     ("largest_loss", .fin 0 1),
     ("recovery_factor", .fin 0 1),
     ("var_95", .fin 0 1),
     ("cvar_95", .fin 0 1),
     ("omega_ratio", .fin 0 1),
     ("tail_ratio", .fin 0 1)]
  else
    let wins := trades.filter (fun p => p > 0)
    let losses := trades.filter (fun p => p < 0)
    let winning_trades := wins.length
    let losing_trades := losses.length
    let win_rate : ℚ :=
      if total_trades > 0 then (winning_trades : ℚ) / (total_trades : ℚ) else 0
    let gross_profit := if wins.isEmpty then 0 else wins.sum
    let gross_loss := if losses.isEmpty then 0 else losses.sum
    let net_profit := gross_profit + gross_loss
    let avg_win := if wins.isEmpty then 0 else meanQ wins
    let avg_loss := if losses.isEmpty then 0 else meanQ losses
    let largest_win := if wins.isEmpty then 0 else maxListQ wins
    let largest_loss := if losses.isEmpty then 0 else minListQ losses
    let final_value :=
      if equity_curve.length > 0 then equity_curve.getLastD initial_capital
      else initial_capital
    let total_return := final_value - initial_capital
    let total_return_pct :=
      if initial_capital > 0 then total_return / initial_capital else 0
    let returns := calculate_returns equity_curve
    let sharpe := calculate_sharpe_ratio returns risk_free_rate periods_per_year
    let sortino := calculate_sortino_ratio returns 0 periods_per_year
    let dd := calculate_max_drawdown equity_curve
    let calmar := calculate_calmar_ratio returns equity_curve periods_per_year
    let profit_factor :=
      if ¬wins.isEmpty ∧ ¬losses.isEmpty then calculate_profit_factor wins losses
      else MVal.fin 0 1
    let expectancy := calculate_expectancy win_rate avg_win |avg_loss|
    let recovery := calculate_recovery_factor total_return_pct dd.max_drawdown
    let var_95 := calculate_var returns (95 / 100)
    let cvar_95 := calculate_cvar returns (95 / 100)
    let omega := calculate_omega_ratio returns 0
    let tail := calculate_tail_ratio returns
    [("total_trades", .fin (total_trades : ℚ) 1),
     ("winning_trades", .fin (winning_trades : ℚ) 1),
     ("losing_trades", .fin (losing_trades : ℚ) 1),
     ("win_rate", .fin win_rate 1),
     ("gross_profit", .fin gross_profit 1),
     ("gross_loss", .fin gross_loss 1),
     ("net_profit", .fin net_profit 1),
     ("total_return", .fin total_return 1),
     ("total_return_pct", .fin total_return_pct 1),
     ("sharpe_ratio", sharpe),
     ("sortino_ratio", sortino),
     ("calmar_ratio", calmar),
     ("omega_ratio", omega),
     ("max_drawdown", .fin dd.max_drawdown 1),
     ("max_drawdown_duration", .fin (dd.max_drawdown_duration : ℚ) 1),
     ("recovery_factor", .fin recovery 1),
     ("profit_factor", profit_factor),
     ("expectancy", .fin expectancy 1),
     ("avg_win", .fin avg_win 1),
     ("avg_loss", .fin avg_loss 1),
     ("largest_win", .fin largest_win 1),
     ("largest_loss", .fin largest_loss 1),
     ("var_95", .fin var_95 1),
     ("cvar_95", .fin cvar_95 1),
     ("tail_ratio", tail)]

/-!
Backtest engine (src/backend/services/backtest_engine.py).

The embedding models BacktestEngine.run from the point where the usable
price rows are available: data loading, indicator computation and signal
generation (lines 134-358) produce a signal-annotated frame whose leading
indicator warm-up rows have been dropped (df.dropna() at line 251); the
simulator consumes only the timestamp index and the high / low / close /
signal columns of that frame (the atr column is read into a local variable
at line 381 but never used), so a Candle below is one usable row.
-/

/-- One usable row of the signal-annotated frame: timestamp plus the high,
low, close and signal columns read by _simulate_trades.  The signal encoding
is the source's: 0 none, 1 buy, -1 sell. -/
structure Candle where
  ts : ℕ
  high : ℚ
  low : ℚ
  close : ℚ
  signal : ℤ
deriving DecidableEq, Repr

/-- The single open-position record (self.current_position).  The side field
is omitted: the simulator only ever creates long positions. -/
structure OpenPosition where
  entry_ts : ℕ
  entry_price : ℚ
  quantity : ℚ
  entry_commission : ℚ
deriving DecidableEq, Repr

/-- Exit reason tag recorded on a closed trade. -/
inductive ExitReason
  | stop_loss
  | take_profit
  | signal
  | backtest_end
deriving DecidableEq, Repr

/-- A recorded trade (the dict appended in _close_position, lines 476-489;
the constant side field is omitted). -/
structure ClosedTrade where
  entry_ts : ℕ
  exit_ts : ℕ
  entry_price : ℚ
  exit_price : ℚ
  quantity : ℚ
  pnl : ℚ
  pnl_pct : ℚ
  duration : ℤ
  exit_reason : ExitReason
  entry_commission : ℚ
  exit_commission : ℚ
deriving DecidableEq, Repr

/-- One equity-curve sample: timestamp and balance. -/
structure EquityPoint where
  ts : ℕ
  balance : ℚ
deriving DecidableEq, Repr

/-- Engine configuration: constructor arguments of BacktestEngine plus the
risk_management strategy parameters read at lines 369-372. -/
structure BacktestConfig where
  initial_capital : ℚ
  commission : ℚ
  slippage : ℚ
  position_size_pct : ℚ
  stop_loss_pct : ℚ
  take_profit_pct : ℚ
deriving DecidableEq, Repr

/-- Mutable simulator state: self.current_capital, self.current_position,
self.trades, self.equity_curve. -/
structure SimState where
  current_capital : ℚ
  current_position : Option OpenPosition
  trades : List ClosedTrade
  equity_curve : List EquityPoint
deriving DecidableEq, Repr

/-- BacktestEngine._close_position (lines 448-499): apply exit slippage,
charge the exit commission, credit the net proceeds to cash, record the
trade, and clear the position. -/
def closePosition (cfg : BacktestConfig) (s : SimState) (ts : ℕ)
    (exit_price : ℚ) (reason : ExitReason) : SimState :=
  match s.current_position with
  | none => s
  | some pos =>
    let exit_price_with_slippage := exit_price * (1 - cfg.slippage)
    let position_value := pos.quantity * exit_price_with_slippage
    let exit_commission := position_value * cfg.commission
    let entry_value := pos.quantity * pos.entry_price
    let pnl := (position_value - entry_value) -
      (pos.entry_commission + exit_commission)
    let pnl_pct := if entry_value > 0 then pnl / entry_value else 0
    { current_capital := s.current_capital + position_value - exit_commission
      current_position := none
      trades := s.trades ++
        [{ entry_ts := pos.entry_ts
           exit_ts := ts
           entry_price := pos.entry_price
           exit_price := exit_price_with_slippage
           quantity := pos.quantity
           pnl := pnl
           pnl_pct := pnl_pct
           duration := (ts : ℤ) - (pos.entry_ts : ℤ)
           exit_reason := reason
           entry_commission := pos.entry_commission
           exit_commission := exit_commission }]
      equity_curve := s.equity_curve }

/-- Position opening (lines 408-433): size the position as
position_size_pct of current cash, buy at the close marked up by slippage,
and deduct only the entry commission from cash (the source does not deduct
the position notional itself). -/
def openPosition (cfg : BacktestConfig) (s : SimState) (c : Candle) : SimState :=
  let position_value := s.current_capital * cfg.position_size_pct
  let entry_price_with_slippage := c.close * (1 + cfg.slippage)
  let quantity := position_value / entry_price_with_slippage
  let entry_commission := position_value * cfg.commission
  { s with
    current_position := some
      { entry_ts := c.ts
        entry_price := entry_price_with_slippage
        quantity := quantity
        entry_commission := entry_commission }
    current_capital := s.current_capital - entry_commission }

/-- BacktestEngine._calculate_current_equity (lines 501-510): cash plus the
open position marked at the given price. -/
def currentEquity (s : SimState) (current_price : ℚ) : ℚ :=
  s.current_capital +
    (match s.current_position with
     | some p => p.quantity * current_price
     | none => 0)

/-- One iteration of the candle loop of _simulate_trades (lines 378-440):
exit logic for an open position (stop-loss, then take-profit, then sell
signal — first match only), entry logic otherwise, then an equity point at
this candle's close. -/
def stepCandle (cfg : BacktestConfig) (s : SimState) (c : Candle) : SimState :=
  let s1 :=
    match s.current_position with
    | some pos =>
      let stop_loss_price := pos.entry_price * (1 - cfg.stop_loss_pct)
      let take_profit_price := pos.entry_price * (1 + cfg.take_profit_pct)
      if c.low ≤ stop_loss_price then
        closePosition cfg s c.ts stop_loss_price .stop_loss
      else if c.high ≥ take_profit_price then
        closePosition cfg s c.ts take_profit_price .take_profit
      else if c.signal = -1 then
        closePosition cfg s c.ts c.close .signal
      else s
    | none => if c.signal = 1 then openPosition cfg s c else s
  { s1 with
    equity_curve := s1.equity_curve ++ [⟨c.ts, currentEquity s1 c.close⟩] }

/-- BacktestEngine._simulate_trades (lines 360-446): seed the equity curve
with the initial capital at the first row's timestamp, run the candle loop,
and force-close any remaining position at the last close.  On an empty frame
the source raises IndexError at df.index[0], which run catches; this is the
none result. -/
def simulate_trades (cfg : BacktestConfig) (df : List Candle) :
    Option SimState :=
  match df with
  | [] => none
  | c0 :: rest =>
    let init : SimState :=
      { current_capital := cfg.initial_capital
        current_position := none
        trades := []
        equity_curve := [⟨c0.ts, cfg.initial_capital⟩] }
    let s := (c0 :: rest).foldl (stepCandle cfg) init
    let last := (c0 :: rest).getLast (List.cons_ne_nil c0 rest)
    some (match s.current_position with
          | some _ => closePosition cfg s last.ts last.close .backtest_end
          | none => s)

/-- Result of BacktestEngine.run.  The optional error-message field of the
source dict is omitted: no claim concerns it. -/
structure BacktestResult where
  metrics : List (String × MVal)
  equity_curve : List EquityPoint
  trades : List ClosedTrade
  success : Bool
deriving DecidableEq, Repr

/-- BacktestEngine._create_empty_result (lines 593-609). -/
def create_empty_result : BacktestResult :=
  { metrics :=
      [("total_trades", .fin 0 1),
       ("winning_trades", .fin 0 1),
       ("losing_trades", .fin 0 1),
       ("win_rate", .fin 0 1),
       ("total_return", .fin 0 1),
       ("total_return_pct", .fin 0 1),
       ("sharpe_ratio", .fin 0 1)]
    equity_curve := []
    trades := []
    success := false }

/-- BacktestEngine._calculate_metrics (lines 512-530): empty dict when the
equity curve has fewer than 2 points, otherwise calculate_all_metrics with
risk_free_rate 0.02 and periods_per_year 252. -/
def calculate_metrics_of (cfg : BacktestConfig) (s : SimState) :
    List (String × MVal) :=
  if s.equity_curve.length < 2 then []
  else calculate_all_metrics (s.equity_curve.map EquityPoint.balance)
    (s.trades.map ClosedTrade.pnl) cfg.initial_capital (2 / 100) 252

/-- BacktestEngine.run (lines 69-132), modelled from the usable rows onward:
the argument is the signal-annotated frame left after indicator warm-up
rows are dropped.  Any failure inside the loop (in particular IndexError on
an empty frame, and the early empty-data check at line 94) is converted to
the empty result; otherwise the result carries the metrics, equity curve and
trades with success true.  Database persistence is out of scope. -/
def BacktestEngine.run (cfg : BacktestConfig) (df : List Candle) :
    BacktestResult :=
  match simulate_trades cfg df with
  | none => create_empty_result
  | some s =>
    { metrics := calculate_metrics_of cfg s
      equity_curve := s.equity_curve
      trades := s.trades
      success := true }

/-!
Risk engine (src/backend/services/risk_manager.py).

All numeric inputs are modelled as rationals.  The RiskLimits field
max_open_positions is declared int in the source dataclass, but Python
performs no runtime type enforcement and update_limits will store whatever
value it is given, so it too is modelled as a rational.  Rejection reasons
are f-strings in the source; they are modelled as a tagged type carrying
the numbers that the source interpolates, which preserves which check
produced the rejection and with what data.
-/

/-- RiskLimits (risk_manager.py lines 14-24), with the source's defaults. -/
structure RiskLimits where
  max_position_size_pct : ℚ := 1 / 10
  max_portfolio_risk_pct : ℚ := 2 / 100
  max_total_exposure_pct : ℚ := 95 / 100
  max_open_positions : ℚ := 10
  max_drawdown_pct : ℚ := 20 / 100
  min_risk_reward_ratio : ℚ := 3 / 2
  default_stop_loss_pct : ℚ := 2 / 100
  default_take_profit_pct : ℚ := 4 / 100
deriving DecidableEq, Repr

/-- Structured rejection reasons (modelling the source's f-strings). -/
inductive RiskReason
  | stop_equals_entry
  | rr_below_min (ratio minimum : ℚ)
  | max_positions (limit : ℚ)
  | exposure_limit (new_pct limit_pct : ℚ)
  | insufficient_balance (needed available : ℚ)
deriving DecidableEq, Repr

/-- PositionSize dataclass (risk_manager.py lines 27-40). -/
structure PositionSize where
  quantity : ℚ
  entry_price : ℚ
  stop_loss_price : ℚ
  take_profit_price : Option ℚ
  position_value : ℚ
  risk_amount : ℚ
  risk_pct : ℚ
  reward_amount : Option ℚ
  risk_reward_ratio : Option ℚ
  approved : Bool
  rejection_reason : Option RiskReason
deriving DecidableEq, Repr

/-- PortfolioRisk dataclass (risk_manager.py lines 43-54). -/
structure PortfolioRisk where
  total_value : ℚ
  available_balance : ℚ
  total_exposure : ℚ
  exposure_pct : ℚ
  open_positions : ℕ
  total_risk_amount : ℚ
  total_risk_pct : ℚ
  can_open_position : Bool
  reason : Option RiskReason
deriving DecidableEq, Repr

/-- An open-position dict passed to assess_portfolio_risk; the source reads
the value and risk_amount keys with .get(key, 0), so both are optional. -/
structure PositionEntry where
  value : Option ℚ
  risk_amount : Option ℚ
deriving DecidableEq, Repr

/-- Resolution of the risk_pct argument of calculate_position_size
(risk_manager.py lines 94-100): default to max_portfolio_risk_pct when
absent, clamp to it when above it. -/
def resolvedRiskPct (limits : RiskLimits) (risk_pct_arg : Option ℚ) : ℚ :=
  let risk_pct0 := risk_pct_arg.getD limits.max_portfolio_risk_pct
  if risk_pct0 > limits.max_portfolio_risk_pct then
    limits.max_portfolio_risk_pct
  else risk_pct0

/-- RiskManager.calculate_position_size (risk_manager.py lines 73-179).
Optional arguments are None-defaulted as in the source; the take-profit
branch follows Python truthiness (None and 0.0 are both falsy). -/
def calculate_position_size (limits : RiskLimits)
    (entry_price stop_loss_price portfolio_value : ℚ)
    (risk_pct_arg : Option ℚ) (take_profit_price_arg : Option ℚ) :
    PositionSize :=
  let risk_pct := resolvedRiskPct limits risk_pct_arg
  let risk_per_unit := |entry_price - stop_loss_price|
  if risk_per_unit = 0 then
    { quantity := 0
      entry_price := entry_price
      stop_loss_price := stop_loss_price
      take_profit_price := take_profit_price_arg
      position_value := 0
      risk_amount := 0
      risk_pct := 0
      reward_amount := none
      risk_reward_ratio := none
      approved := false
      rejection_reason := some .stop_equals_entry }
  else
    let max_risk_amount := portfolio_value * risk_pct
    let quantity0 := max_risk_amount / risk_per_unit
    let position_value0 := quantity0 * entry_price
    let max_position_value := portfolio_value * limits.max_position_size_pct
    let scaled := position_value0 > max_position_value
    let quantity := if scaled then max_position_value / entry_price else quantity0
    let position_value :=
      if scaled then (max_position_value / entry_price) * entry_price
      else position_value0
    let actual_risk_amount :=
      if scaled then (max_position_value / entry_price) * risk_per_unit
      else max_risk_amount
    let actual_risk_pct :=
      if scaled then actual_risk_amount / portfolio_value else risk_pct
    let reward : Option (ℚ × ℚ) :=
      match take_profit_price_arg with
      | some tp =>
        if tp ≠ 0 then
          let reward_per_unit := |tp - entry_price|
          let reward_amount := quantity * reward_per_unit
          let rrr :=
            if actual_risk_amount > 0 then reward_amount / actual_risk_amount
            else 0
          some (reward_amount, rrr)
        else none
      | none => none
    match reward with
    | some (reward_amount, rrr) =>
      if rrr < limits.min_risk_reward_ratio then
        { quantity := quantity
          entry_price := entry_price
          stop_loss_price := stop_loss_price
          take_profit_price := take_profit_price_arg
          position_value := position_value
          risk_amount := actual_risk_amount
          risk_pct := actual_risk_pct
          reward_amount := some reward_amount
          risk_reward_ratio := some rrr
          approved := false
          rejection_reason := some (.rr_below_min rrr limits.min_risk_reward_ratio) }
      else
        { quantity := quantity
          entry_price := entry_price
          stop_loss_price := stop_loss_price
          take_profit_price := take_profit_price_arg
          position_value := position_value
          risk_amount := actual_risk_amount
          risk_pct := actual_risk_pct
          reward_amount := some reward_amount
          risk_reward_ratio := some rrr
          approved := true
          rejection_reason := none }
    | none =>
      { quantity := quantity
        entry_price := entry_price
        stop_loss_price := stop_loss_price
        take_profit_price := take_profit_price_arg
        position_value := position_value
        risk_amount := actual_risk_amount
        risk_pct := actual_risk_pct
        reward_amount := none
        risk_reward_ratio := none
        approved := true
        rejection_reason := none }

/-- RiskManager.assess_portfolio_risk (risk_manager.py lines 256-343).
The candidate checks run in source order: position count, then projected
exposure (a strict comparison, and this division carries no portfolio > 0
guard in the source — Python raises ZeroDivisionError on a zero portfolio),
then available balance. -/
def assess_portfolio_risk (limits : RiskLimits)
    (portfolio_value available_balance : ℚ)
    (open_positions : List PositionEntry)
    (new_position_value : Option ℚ) : PortfolioRisk :=
  let total_position_value := (open_positions.map (fun p => p.value.getD 0)).sum
  let total_exposure := total_position_value
  let exposure_pct :=
    if portfolio_value > 0 then total_exposure / portfolio_value else 0
  let total_risk_amount :=
    (open_positions.map (fun p => p.risk_amount.getD 0)).sum
  let total_risk_pct :=
    if portfolio_value > 0 then total_risk_amount / portfolio_value else 0
  let num_positions := open_positions.length
  let base : PortfolioRisk :=
    { total_value := portfolio_value
      available_balance := available_balance
      total_exposure := total_exposure
      exposure_pct := exposure_pct
      open_positions := num_positions
      total_risk_amount := total_risk_amount
      total_risk_pct := total_risk_pct
      can_open_position := true
      reason := none }
  match new_position_value with
  | none => base
  | some v =>
    if (num_positions : ℚ) ≥ limits.max_open_positions then
      { base with
        can_open_position := false
        reason := some (.max_positions limits.max_open_positions) }
    else
      let new_total_exposure := total_exposure + v
      let new_exposure_pct := new_total_exposure / portfolio_value
      if new_exposure_pct > limits.max_total_exposure_pct then
        { base with
          can_open_position := false
          reason := some (.exposure_limit new_exposure_pct
            limits.max_total_exposure_pct) }
      else if v > available_balance then
        { base with
          can_open_position := false
          reason := some (.insufficient_balance v available_balance) }
      else base

/-- Names of the RiskLimits dataclass fields, as an enumeration. -/
inductive RLField
  | max_position_size_pct
  | max_portfolio_risk_pct
  | max_total_exposure_pct
  | max_open_positions
  | max_drawdown_pct
  | min_risk_reward_ratio
  | default_stop_loss_pct
  | default_take_profit_pct
deriving DecidableEq, Repr

/-- Python attribute name of a RiskLimits field. -/
def RLField.name : RLField → String
  | .max_position_size_pct => "max_position_size_pct"
  | .max_portfolio_risk_pct => "max_portfolio_risk_pct"
  | .max_total_exposure_pct => "max_total_exposure_pct"
  | .max_open_positions => "max_open_positions"
  | .max_drawdown_pct => "max_drawdown_pct"
  | .min_risk_reward_ratio => "min_risk_reward_ratio"
  | .default_stop_loss_pct => "default_stop_loss_pct"
  | .default_take_profit_pct => "default_take_profit_pct"

/-- getattr on a RiskLimits field. -/
def RLField.get (l : RiskLimits) : RLField → ℚ
  | .max_position_size_pct => l.max_position_size_pct
  | .max_portfolio_risk_pct => l.max_portfolio_risk_pct
  | .max_total_exposure_pct => l.max_total_exposure_pct
  | .max_open_positions => l.max_open_positions
  | .max_drawdown_pct => l.max_drawdown_pct
  | .min_risk_reward_ratio => l.min_risk_reward_ratio
  | .default_stop_loss_pct => l.default_stop_loss_pct
  | .default_take_profit_pct => l.default_take_profit_pct

/-- setattr on a RiskLimits field. -/
def RLField.set (l : RiskLimits) : RLField → ℚ → RiskLimits
  | .max_position_size_pct, v => { l with max_position_size_pct := v }
  | .max_portfolio_risk_pct, v => { l with max_portfolio_risk_pct := v }
  | .max_total_exposure_pct, v => { l with max_total_exposure_pct := v }
  | .max_open_positions, v => { l with max_open_positions := v }
  | .max_drawdown_pct, v => { l with max_drawdown_pct := v }
  | .min_risk_reward_ratio, v => { l with min_risk_reward_ratio := v }
  | .default_stop_loss_pct, v => { l with default_stop_loss_pct := v }
  | .default_take_profit_pct, v => { l with default_take_profit_pct := v }

/-- hasattr(self.limits, key) restricted to the dataclass data fields
(Python dunder attributes are outside the model's scope). -/
def fieldOfName (n : String) : Option RLField :=
  if n = "max_position_size_pct" then some .max_position_size_pct
  else if n = "max_portfolio_risk_pct" then some .max_portfolio_risk_pct
  else if n = "max_total_exposure_pct" then some .max_total_exposure_pct
  else if n = "max_open_positions" then some .max_open_positions
  else if n = "max_drawdown_pct" then some .max_drawdown_pct
  else if n = "min_risk_reward_ratio" then some .min_risk_reward_ratio
  else if n = "default_stop_loss_pct" then some .default_stop_loss_pct
  else if n = "default_take_profit_pct" then some .default_take_profit_pct
  else none

/-- Body of the update_limits loop: setattr when the key names a field,
otherwise only a warning is logged and nothing changes. -/
def setattrLimits (l : RiskLimits) (key : String) (value : ℚ) : RiskLimits :=
  match fieldOfName key with
  | some f => RLField.set l f value
  | none => l

/-- RiskManager.update_limits (risk_manager.py lines 401-413): iterate the
keyword arguments in order, setting each named existing field. -/
def update_limits (l : RiskLimits) (kwargs : List (String × ℚ)) : RiskLimits :=
  kwargs.foldl (fun acc kv => setattrLimits acc kv.1 kv.2) l

/-- Last value bound to a key in a keyword-argument list (Python keyword
arguments have unique keys; for a general list the last binding wins,
matching the fold in update_limits). -/
def lookupLast : List (String × ℚ) → String → Option ℚ
  | [], _ => none
  | (k, v) :: ks, n =>
    match lookupLast ks n with
    | some w => some w
    | none => if k = n then some v else none

/-!
Claim theorems.
-/

/-- Key set of the early-return dict of calculate_all_metrics for an empty
trade list (metrics.py lines 441-464). -/
def emptyCaseMetricKeys : List String :=
  ["total_trades", "winning_trades", "losing_trades", "win_rate",
   "total_return", "total_return_pct", "sharpe_ratio", "sortino_ratio",
   "max_drawdown", "max_drawdown_duration", "calmar_ratio", "profit_factor",
   "expectancy", "avg_win", "avg_loss", "largest_win", "largest_loss",
   "recovery_factor", "var_95", "cvar_95", "omega_ratio", "tail_ratio"]

/-- Key set of the dict returned by calculate_all_metrics on a nonempty
trade list (metrics.py lines 510-547). -/
def tradeCaseMetricKeys : List String :=
  ["total_trades", "winning_trades", "losing_trades", "win_rate",
   "gross_profit", "gross_loss", "net_profit", "total_return",
   "total_return_pct", "sharpe_ratio", "sortino_ratio", "calmar_ratio",
   "omega_ratio", "max_drawdown", "max_drawdown_duration", "recovery_factor",
   "profit_factor", "expectancy", "avg_win", "avg_loss", "largest_win",
   "largest_loss", "var_95", "cvar_95", "tail_ratio"]

/-- Claim C4, counterexample: on the single-element returns series with the
value 1/2 (and the engine's defaults risk_free_rate = 0.02,
periods_per_year = 252), calculate_sharpe_ratio returns NaN, not 0.0: the
length guard only catches the empty series, and the sample standard
deviation of one observation is NaN (ddof = 1), which passes the
std == 0 check and propagates through the division. -/
theorem calculate_sharpe_ratio_singleton_returns_nan :
    calculate_sharpe_ratio [1 / 2] (2 / 100) 252 = MVal.nan := by
  rfl

/-- Claim C4 (amended): on an EMPTY returns series, calculate_sharpe_ratio,
calculate_sortino_ratio, calculate_calmar_ratio, calculate_omega_ratio and
calculate_tail_ratio all return exactly 0.0, for every choice of the other
arguments, with no NaN or infinity.  (A single-element series is not
guarded: Sharpe returns NaN, Omega returns inf for one positive return, the
tail ratio returns r/|r| for one nonzero return.) -/
theorem ratio_metrics_zero_on_empty_returns (risk_free_rate periods_per_year
    target_return threshold : ℚ) (equity_curve : List ℚ) :
    calculate_sharpe_ratio [] risk_free_rate periods_per_year = MVal.fin 0 1 ∧
    calculate_sortino_ratio [] target_return periods_per_year = MVal.fin 0 1 ∧
    calculate_calmar_ratio [] equity_curve periods_per_year = MVal.fin 0 1 ∧
    calculate_omega_ratio [] threshold = MVal.fin 0 1 ∧
    calculate_tail_ratio [] = MVal.fin 0 1 :=
  ⟨rfl, rfl, rfl, rfl, rfl⟩

/-- Claim C5, counterexample: the dict calculate_all_metrics returns for an
empty trade list does not contain the gross_profit key, while the dict for a
nonempty trade list does — the key sets of the two cases differ, and the
empty-input record is missing a MetricsBundle field. -/
theorem calculate_all_metrics_empty_case_lacks_gross_profit_key :
    "gross_profit" ∈
      (calculate_all_metrics [1000, 1100] [100] 1000 (2 / 100) 252).map
        Prod.fst ∧
    "gross_profit" ∉
      (calculate_all_metrics [1000, 1100] [] 1000 (2 / 100) 252).map
        Prod.fst := by
  constructor
  · simp [calculate_all_metrics]
  · simp [calculate_all_metrics]

/-- Claim C5 (amended): calculate_all_metrics returns the fixed 22-key
zero-filled record (without gross_profit, gross_loss and net_profit) when
the trade list is empty, and the fixed 25-key record (with them) when it is
nonempty; within each case the key set is input-independent, but the two
cases differ by exactly those three P&L keys. -/
theorem calculate_all_metrics_key_shape (equity_curve trades : List ℚ)
    (initial_capital risk_free_rate periods_per_year : ℚ) :
    (trades = [] →
      calculate_all_metrics equity_curve trades initial_capital
          risk_free_rate periods_per_year
        = emptyCaseMetricKeys.map (fun k => (k, MVal.fin 0 1))) ∧
    (trades ≠ [] →
      (calculate_all_metrics equity_curve trades initial_capital
          risk_free_rate periods_per_year).map Prod.fst
        = tradeCaseMetricKeys) := by
  constructor
  · rintro rfl
    rfl
  · intro h
    obtain ⟨t, ts, rfl⟩ := List.exists_cons_of_ne_nil h
    rfl

/-- Witness for calculate_all_metrics_key_shape at concrete inputs. -/
theorem calculate_all_metrics_key_shape_witness :
    (calculate_all_metrics [1000, 1100] [100] 1000 (2 / 100) 252).map
        Prod.fst
      = tradeCaseMetricKeys :=
  (calculate_all_metrics_key_shape [1000, 1100] [100] 1000 (2 / 100) 252).2
    (List.cons_ne_nil 100 [])

/-- Claim C2, counterexample: a frame with exactly ONE usable row (fewer
than 2) still runs to completion with success true — the source has no
minimum-row check after indicator warm-up removal; only a fully empty frame
takes the failure path (via IndexError at the equity-curve seed). -/
theorem run_with_one_usable_row_succeeds :
    (BacktestEngine.run ⟨10000, 1 / 1000, 5 / 10000, 1, 2 / 100, 5 / 100⟩
      [⟨0, 100, 90, 95, 0⟩]).success = true := rfl

/-- Claim C2 (amended): BacktestEngine.run returns the empty failure result
(success false, zero-valued metrics, empty curve and trades) exactly when
ZERO usable rows remain after warm-up removal; with one or more usable rows
(including exactly one) the run proceeds and returns success true.  Nothing
is raised past the boundary in either case (run is total). -/
theorem run_result_by_usable_rows (cfg : BacktestConfig) (df : List Candle) :
    (df = [] →
      BacktestEngine.run cfg df = create_empty_result ∧
      create_empty_result.success = false ∧
      create_empty_result.equity_curve = [] ∧
      create_empty_result.trades = [] ∧
      ∀ kv ∈ create_empty_result.metrics, kv.2 = MVal.fin 0 1) ∧
    (df ≠ [] → (BacktestEngine.run cfg df).success = true) := by
  constructor
  · rintro rfl
    refine ⟨rfl, rfl, rfl, rfl, ?_⟩
    intro kv hkv
    fin_cases hkv <;> rfl
  · intro h
    obtain ⟨c, cs, rfl⟩ := List.exists_cons_of_ne_nil h
    rfl

/-- Witness for run_result_by_usable_rows at concrete inputs. -/
theorem run_result_by_usable_rows_witness :
    BacktestEngine.run ⟨10000, 1 / 1000, 5 / 10000, 1, 2 / 100, 5 / 100⟩
        ([] : List Candle)
      = create_empty_result ∧
    (BacktestEngine.run ⟨10000, 1 / 1000, 5 / 10000, 1, 2 / 100, 5 / 100⟩
        [⟨1, 101, 99, 100, 0⟩]).success = true :=
  ⟨((run_result_by_usable_rows
      ⟨10000, 1 / 1000, 5 / 10000, 1, 2 / 100, 5 / 100⟩ []).1 rfl).1,
   (run_result_by_usable_rows
      ⟨10000, 1 / 1000, 5 / 10000, 1, 2 / 100, 5 / 100⟩
      [⟨1, 101, 99, 100, 0⟩]).2 (List.cons_ne_nil _ _)⟩

/-- Claim C1 (code-bug evidence): with initial capital 1000, commission
0.001, no slippage, and full position sizing, on the candle where the
position opens (close price 100, so notional 1000, quantity 10, commission
1) the recorded equity balance is 1999: the source deducts only the entry
commission from cash and never the entry notional, so the equity point is
(1000 - 1) + 10 * 100 = 1999 instead of the true mark-to-market value
(1000 - 1000 - 1) + 10 * 100 = 999 asserted by the claim — recorded equity
jumps by the full unpaid notional on the entry candle. -/
theorem equity_on_entry_candle_jumps_by_notional :
    ((BacktestEngine.run ⟨1000, 1 / 1000, 0, 1, 2 / 100, 5 / 100⟩
        [⟨0, 100, 100, 100, 1⟩]).equity_curve.map EquityPoint.balance
      = [1000, 1999]) ∧ ((1999 : ℚ) ≠ 999) := by
  constructor
  · norm_num [BacktestEngine.run, simulate_trades, stepCandle, openPosition,
      closePosition, currentEquity]
  · norm_num

/-- Number of open positions a simulator state holds: the source keeps a
single nullable field, so this is 0 or 1 by construction. -/
def openPositionCount (s : SimState) : ℕ :=
  match s.current_position with
  | some _ => 1
  | none => 0

/-- Closing a position never touches the equity curve. -/
theorem closePosition_equity_curve (cfg : BacktestConfig) (s : SimState)
    (ts : ℕ) (p : ℚ) (r : ExitReason) :
    (closePosition cfg s ts p r).equity_curve = s.equity_curve := by
  rcases h : s.current_position with _ | pos <;> simp [closePosition, h]

/-- Each candle step appends exactly one equity point, stamped with that
candle's timestamp. -/
theorem stepCandle_equity_ts (cfg : BacktestConfig) (s : SimState)
    (c : Candle) :
    ((stepCandle cfg s c).equity_curve).map EquityPoint.ts
      = (s.equity_curve.map EquityPoint.ts) ++ [c.ts] := by
  unfold stepCandle
  rcases h : s.current_position with _ | pos
  · by_cases hs : c.signal = 1 <;> simp [h, hs, openPosition]
  · simp only [h]
    split_ifs <;> simp [closePosition_equity_curve]

/-- Timestamps of the equity curve accumulated by the candle loop. -/
theorem foldl_equity_ts (cfg : BacktestConfig) (df : List Candle) :
    ∀ s : SimState,
      ((df.foldl (stepCandle cfg) s).equity_curve).map EquityPoint.ts
        = (s.equity_curve.map EquityPoint.ts) ++ df.map Candle.ts := by
  induction df with
  | nil => intro s; simp
  | cons c cs ih =>
    intro s
    simp [List.foldl_cons, ih, stepCandle_equity_ts]

/-- Timestamps of the final equity curve of a successful simulation: the
seed point at the first candle's timestamp followed by one point per
candle. -/
theorem simulate_trades_curve_ts (cfg : BacktestConfig) (c0 : Candle)
    (rest : List Candle) (s : SimState)
    (hs : simulate_trades cfg (c0 :: rest) = some s) :
    s.equity_curve.map EquityPoint.ts
      = c0.ts :: c0.ts :: rest.map Candle.ts := by
  have hfold := foldl_equity_ts cfg (c0 :: rest)
    { current_capital := cfg.initial_capital
      current_position := none
      trades := []
      equity_curve := [⟨c0.ts, cfg.initial_capital⟩] }
  simp only [simulate_trades] at hs
  split at hs <;> cases hs <;>
    first
      | (rw [closePosition_equity_curve]; simpa using hfold)
      | simpa using hfold

/-- Claim C3, counterexample: over 2 simulated candles the final equity
curve has 3 points, not 2 — _simulate_trades seeds the curve with an extra
initial point (at the first candle's timestamp, with the initial capital)
before the loop appends one point per candle. -/
theorem equity_curve_length_exceeds_candle_count :
    (BacktestEngine.run ⟨1000, 1 / 1000, 0, 1, 2 / 100, 5 / 100⟩
        [⟨0, 10, 10, 10, 0⟩, ⟨1, 10, 10, 10, 0⟩]).equity_curve.length ≠
      ([⟨0, 10, 10, 10, 0⟩, ⟨1, 10, 10, 10, 0⟩] : List Candle).length := by
  decide

/-- Claim C3 (amended): over n simulated candles the final equity curve has
exactly n + 1 points — a seed point at the first candle's timestamp plus one
point per candle — with nondecreasing timestamps whenever the input frame is
sorted by timestamp (the seed duplicates the first candle's timestamp, so
the order is nondecreasing, not strictly increasing); and the simulator
state can hold at most one open position at any time, by construction of its
single nullable position field. -/
theorem equity_curve_shape (cfg : BacktestConfig) (df : List Candle)
    (hne : df ≠ [])
    (hsort : List.Chain' (fun a b : Candle => a.ts ≤ b.ts) df) :
    (BacktestEngine.run cfg df).equity_curve.length = df.length + 1 ∧
    List.Chain' (fun p q : EquityPoint => p.ts ≤ q.ts)
      (BacktestEngine.run cfg df).equity_curve ∧
    ∀ st : SimState, openPositionCount st ≤ 1 := by
  obtain ⟨c0, rest, rfl⟩ := List.exists_cons_of_ne_nil hne
  rcases hsim : simulate_trades cfg (c0 :: rest) with _ | s
  · exact absurd hsim (by simp [simulate_trades])
  · have hts : s.equity_curve.map EquityPoint.ts
        = c0.ts :: c0.ts :: rest.map Candle.ts :=
      simulate_trades_curve_ts cfg c0 rest s hsim
    have hrun : (BacktestEngine.run cfg (c0 :: rest)).equity_curve
        = s.equity_curve := by
      simp [BacktestEngine.run, hsim]
    refine ⟨?_, ?_, ?_⟩
    · have hlen := congrArg List.length hts
      simp only [List.length_map, List.length_cons] at hlen ⊢
      rw [hrun]
      exact hlen
    · rw [hrun, ← List.chain'_map EquityPoint.ts, hts, List.chain'_cons]
      refine ⟨le_refl _, ?_⟩
      have := (List.chain'_map Candle.ts).mpr hsort
      simpa using this
    · intro st
      rcases h : st.current_position with _ | p <;>
        simp [openPositionCount, h]

/-- Witness for equity_curve_shape at a concrete two-candle frame. -/
theorem equity_curve_shape_witness :
    (BacktestEngine.run ⟨1000, 1 / 1000, 0, 1, 2 / 100, 5 / 100⟩
        [⟨0, 10, 10, 10, 0⟩, ⟨1, 10, 10, 10, 0⟩]).equity_curve.length
      = ([⟨0, 10, 10, 10, 0⟩, ⟨1, 10, 10, 10, 0⟩] : List Candle).length + 1 :=
  (equity_curve_shape ⟨1000, 1 / 1000, 0, 1, 2 / 100, 5 / 100⟩
    [⟨0, 10, 10, 10, 0⟩, ⟨1, 10, 10, 10, 0⟩]
    (List.cons_ne_nil _ _) (by simp [List.chain'_cons])).1

/-- Fields of the state after _close_position runs on an open position: the
position is cleared and exactly one trade is appended, carrying the given
exit reason and the slippage-adjusted exit price. -/
theorem closePosition_fields (cfg : BacktestConfig) (s : SimState) (ts : ℕ)
    (p : ℚ) (r : ExitReason) (pos : OpenPosition)
    (hpos : s.current_position = some pos) :
    (closePosition cfg s ts p r).current_position = none ∧
    (closePosition cfg s ts p r).trades.length = s.trades.length + 1 ∧
    ((closePosition cfg s ts p r).trades.map ClosedTrade.exit_reason).getLast?
      = some r ∧
    ((closePosition cfg s ts p r).trades.map ClosedTrade.exit_price).getLast?
      = some (p * (1 - cfg.slippage)) := by
  simp [closePosition, hpos, List.getLast?_concat]

/-- Claim C7: on a candle processed with an open position, the exit
conditions are evaluated in source order — stop-loss breach (low at or below
the stop price, closing at the stop price), else take-profit breach (high at
or above the target, closing at the target), else a sell signal (closing at
the candle close) — only the first match fires, and if none matches the
position survives the candle unchanged with no trade recorded.  Recorded
exit prices carry the exit slippage applied by _close_position. -/
theorem exit_conditions_fire_in_order (cfg : BacktestConfig) (s : SimState)
    (c : Candle) (pos : OpenPosition)
    (hpos : s.current_position = some pos) :
    (c.low ≤ pos.entry_price * (1 - cfg.stop_loss_pct) →
      (stepCandle cfg s c).current_position = none ∧
      (stepCandle cfg s c).trades.length = s.trades.length + 1 ∧
      ((stepCandle cfg s c).trades.map ClosedTrade.exit_reason).getLast?
        = some ExitReason.stop_loss ∧
      ((stepCandle cfg s c).trades.map ClosedTrade.exit_price).getLast?
        = some (pos.entry_price * (1 - cfg.stop_loss_pct)
            * (1 - cfg.slippage))) ∧
    (¬ c.low ≤ pos.entry_price * (1 - cfg.stop_loss_pct) →
     c.high ≥ pos.entry_price * (1 + cfg.take_profit_pct) →
      (stepCandle cfg s c).current_position = none ∧
      (stepCandle cfg s c).trades.length = s.trades.length + 1 ∧
      ((stepCandle cfg s c).trades.map ClosedTrade.exit_reason).getLast?
        = some ExitReason.take_profit ∧
      ((stepCandle cfg s c).trades.map ClosedTrade.exit_price).getLast?
        = some (pos.entry_price * (1 + cfg.take_profit_pct)
            * (1 - cfg.slippage))) ∧
    (¬ c.low ≤ pos.entry_price * (1 - cfg.stop_loss_pct) →
     ¬ c.high ≥ pos.entry_price * (1 + cfg.take_profit_pct) →
     c.signal = -1 →
      (stepCandle cfg s c).current_position = none ∧
      (stepCandle cfg s c).trades.length = s.trades.length + 1 ∧
      ((stepCandle cfg s c).trades.map ClosedTrade.exit_reason).getLast?
        = some ExitReason.signal ∧
      ((stepCandle cfg s c).trades.map ClosedTrade.exit_price).getLast?
        = some (c.close * (1 - cfg.slippage))) ∧
    (¬ c.low ≤ pos.entry_price * (1 - cfg.stop_loss_pct) →
     ¬ c.high ≥ pos.entry_price * (1 + cfg.take_profit_pct) →
     ¬ c.signal = -1 →
      (stepCandle cfg s c).current_position = some pos ∧
      (stepCandle cfg s c).trades = s.trades) := by
  refine ⟨?_, ?_, ?_, ?_⟩
  · intro hlow
    have h := closePosition_fields cfg s c.ts
      (pos.entry_price * (1 - cfg.stop_loss_pct)) ExitReason.stop_loss pos hpos
    simpa [stepCandle, hpos, hlow] using h
  · intro hlow hhigh
    have h := closePosition_fields cfg s c.ts
      (pos.entry_price * (1 + cfg.take_profit_pct)) ExitReason.take_profit pos
      hpos
    simpa [stepCandle, hpos, hlow, hhigh] using h
  · intro hlow hhigh hsig
    have h := closePosition_fields cfg s c.ts c.close ExitReason.signal pos
      hpos
    simpa [stepCandle, hpos, hlow, hhigh, hsig] using h
  · intro hlow hhigh hsig
    constructor <;> simp [stepCandle, hpos, hlow, hhigh, hsig]

/-- Witness for exit_conditions_fire_in_order: a concrete state whose
stop-loss is breached by the candle low. -/
theorem exit_conditions_fire_in_order_witness :
    (stepCandle ⟨1000, 1 / 100, 0, 1, 1 / 10, 1 / 2⟩
        ⟨990, some ⟨0, 100, 10, 10⟩, [], [⟨0, 1000⟩]⟩
        ⟨1, 95, 85, 92, 0⟩).current_position = none ∧
    (stepCandle ⟨1000, 1 / 100, 0, 1, 1 / 10, 1 / 2⟩
        ⟨990, some ⟨0, 100, 10, 10⟩, [], [⟨0, 1000⟩]⟩
        ⟨1, 95, 85, 92, 0⟩).trades.length
      = ([] : List ClosedTrade).length + 1 ∧
    ((stepCandle ⟨1000, 1 / 100, 0, 1, 1 / 10, 1 / 2⟩
        ⟨990, some ⟨0, 100, 10, 10⟩, [], [⟨0, 1000⟩]⟩
        ⟨1, 95, 85, 92, 0⟩).trades.map ClosedTrade.exit_reason).getLast?
      = some ExitReason.stop_loss ∧
    ((stepCandle ⟨1000, 1 / 100, 0, 1, 1 / 10, 1 / 2⟩
        ⟨990, some ⟨0, 100, 10, 10⟩, [], [⟨0, 1000⟩]⟩
        ⟨1, 95, 85, 92, 0⟩).trades.map ClosedTrade.exit_price).getLast?
      = some ((100 : ℚ) * (1 - 1 / 10) * (1 - 0)) :=
  (exit_conditions_fire_in_order ⟨1000, 1 / 100, 0, 1, 1 / 10, 1 / 2⟩
    ⟨990, some ⟨0, 100, 10, 10⟩, [], [⟨0, 1000⟩]⟩
    ⟨1, 95, 85, 92, 0⟩ ⟨0, 100, 10, 10⟩ rfl).1 (by norm_num)

/-- Property of a recorded trade checked by claim C6: commissions are
nonnegative in total and the recorded P&L is exactly (exit notional - exit
commission) - (entry notional + entry commission), with both notionals the
quantity times the recorded post-slippage prices. -/
def TradeOK (t : ClosedTrade) : Prop :=
  0 ≤ t.entry_commission + t.exit_commission ∧
  t.pnl = (t.quantity * t.exit_price - t.exit_commission)
    - (t.quantity * t.entry_price + t.entry_commission)

/-- Sanity hypotheses on the engine configuration: nonnegative capital, a
commission rate and slippage rate in [0, 1], a position-size fraction in
[0, 1], a stop-loss percentage in [0, 1] and a nonnegative take-profit
percentage (the source defaults are 0.001, 0.0005, 1.0, 0.02, 0.05). -/
def CfgOK (cfg : BacktestConfig) : Prop :=
  0 ≤ cfg.initial_capital ∧ 0 ≤ cfg.commission ∧ cfg.commission ≤ 1 ∧
  0 ≤ cfg.slippage ∧ cfg.slippage ≤ 1 ∧ 0 ≤ cfg.position_size_pct ∧
  cfg.position_size_pct ≤ 1 ∧ 0 ≤ cfg.stop_loss_pct ∧ cfg.stop_loss_pct ≤ 1 ∧
  0 ≤ cfg.take_profit_pct

/-- Invariant maintained by the simulator: cash is nonnegative, any open
position has nonnegative quantity, entry price and entry commission, and
every recorded trade satisfies TradeOK. -/
def StateOK (s : SimState) : Prop :=
  0 ≤ s.current_capital ∧
  (∀ p, s.current_position = some p →
    0 ≤ p.quantity ∧ 0 ≤ p.entry_price ∧ 0 ≤ p.entry_commission) ∧
  (∀ t ∈ s.trades, TradeOK t)

/-- The equity-curve component is irrelevant to the state invariant. -/
theorem StateOK_update_curve (s : SimState) (e : List EquityPoint) :
    StateOK { s with equity_curve := e } ↔ StateOK s := Iff.rfl

/-- Closing a position at a nonnegative exit price preserves the state
invariant, and the appended trade satisfies TradeOK. -/
theorem closePosition_stateOK (cfg : BacktestConfig) (s : SimState) (ts : ℕ)
    (price : ℚ) (r : ExitReason) (hcfg : CfgOK cfg) (hs : StateOK s)
    (hp : 0 ≤ price) : StateOK (closePosition cfg s ts price r) := by
  obtain ⟨hcap, hpos, htr⟩ := hs
  obtain ⟨hic, hc0, hc1, hs0, hs1, hz0, hz1, hl0, hl1, ht0⟩ := hcfg
  rcases h : s.current_position with _ | pos
  · simpa [closePosition, h] using ⟨hcap, hpos, htr⟩
  · obtain ⟨hq, hep, hec⟩ := hpos pos h
    have hslip : (0 : ℚ) ≤ 1 - cfg.slippage := by linarith
    have hxp : (0 : ℚ) ≤ price * (1 - cfg.slippage) := mul_nonneg hp hslip
    have hpv : (0 : ℚ) ≤ pos.quantity * (price * (1 - cfg.slippage)) :=
      mul_nonneg hq hxp
    simp only [closePosition, h]
    refine ⟨?_, ?_, ?_⟩
    · show (0 : ℚ) ≤ s.current_capital
        + pos.quantity * (price * (1 - cfg.slippage))
        - pos.quantity * (price * (1 - cfg.slippage)) * cfg.commission
      nlinarith [mul_nonneg hpv hc0, mul_nonneg hpv (sub_nonneg.mpr hc1)]
    · intro p hp'
      simp at hp'
    · intro t ht
      rcases List.mem_append.mp ht with hold | hnew
      · exact htr t hold
      · rcases List.mem_singleton.mp hnew with rfl
        constructor
        · have hxc : (0 : ℚ) ≤
              pos.quantity * (price * (1 - cfg.slippage)) * cfg.commission :=
            mul_nonneg hpv hc0
          simpa using add_nonneg hec hxc
        · show (pos.quantity * (price * (1 - cfg.slippage))
              - pos.quantity * pos.entry_price)
            - (pos.entry_commission
              + pos.quantity * (price * (1 - cfg.slippage)) * cfg.commission)
            = (pos.quantity * (price * (1 - cfg.slippage))
              - pos.quantity * (price * (1 - cfg.slippage)) * cfg.commission)
              - (pos.quantity * pos.entry_price + pos.entry_commission)
          ring

/-- Opening a position on a candle with a positive close price preserves the
state invariant. -/
theorem openPosition_stateOK (cfg : BacktestConfig) (s : SimState)
    (c : Candle) (hcfg : CfgOK cfg) (hs : StateOK s) (hc : 0 < c.close) :
    StateOK (openPosition cfg s c) := by
  obtain ⟨hcap, hpos, htr⟩ := hs
  obtain ⟨hic, hc0, hc1, hs0, hs1, hz0, hz1, hl0, hl1, ht0⟩ := hcfg
  have hpc : (0 : ℚ) ≤ cfg.position_size_pct * cfg.commission :=
    mul_nonneg hz0 hc0
  have hpc1 : cfg.position_size_pct * cfg.commission ≤ 1 :=
    mul_le_one₀ hz1 hc0 hc1
  refine ⟨?_, ?_, ?_⟩
  · show (0 : ℚ) ≤ s.current_capital
      - s.current_capital * cfg.position_size_pct * cfg.commission
    nlinarith [mul_nonneg hcap hpc]
  · intro p hp'
    simp only [openPosition, Option.some.injEq] at hp'
    rcases hp' with rfl
    refine ⟨?_, ?_, ?_⟩
    · exact div_nonneg (mul_nonneg hcap hz0)
        (mul_nonneg hc.le (by linarith))
    · exact mul_nonneg hc.le (by linarith)
    · exact mul_nonneg (mul_nonneg hcap hz0) hc0
  · exact htr

/-- One candle step preserves the state invariant. -/
theorem stepCandle_stateOK (cfg : BacktestConfig) (s : SimState) (c : Candle)
    (hcfg : CfgOK cfg) (hs : StateOK s) (hc : 0 < c.close) :
    StateOK (stepCandle cfg s c) := by
  unfold stepCandle
  rcases h : s.current_position with _ | pos
  · simp only [h]
    by_cases hsig : c.signal = 1
    · simp only [hsig, if_true, reduceIte]
      exact (StateOK_update_curve _ _).mpr (openPosition_stateOK cfg s c hcfg hs hc)
    · simp only [hsig, if_false, reduceIte]
      exact (StateOK_update_curve _ _).mpr hs
  · have hep : 0 ≤ pos.entry_price := (hs.2.1 pos h).2.1
    obtain ⟨hic, hc0, hc1, hs0, hs1, hz0, hz1, hl0, hl1, ht0⟩ := hcfg
    simp only [h]
    split_ifs with h1 h2 h3
    · exact (StateOK_update_curve _ _).mpr
        (closePosition_stateOK cfg s c.ts _ _
          ⟨hic, hc0, hc1, hs0, hs1, hz0, hz1, hl0, hl1, ht0⟩ hs
          (mul_nonneg hep (by linarith)))
    · exact (StateOK_update_curve _ _).mpr
        (closePosition_stateOK cfg s c.ts _ _
          ⟨hic, hc0, hc1, hs0, hs1, hz0, hz1, hl0, hl1, ht0⟩ hs
          (mul_nonneg hep (by linarith)))
    · exact (StateOK_update_curve _ _).mpr
        (closePosition_stateOK cfg s c.ts _ _
          ⟨hic, hc0, hc1, hs0, hs1, hz0, hz1, hl0, hl1, ht0⟩ hs hc.le)
    · exact (StateOK_update_curve _ _).mpr hs

/-- The candle loop preserves the state invariant. -/
theorem foldl_stateOK (cfg : BacktestConfig) (hcfg : CfgOK cfg) :
    ∀ (df : List Candle) (s : SimState), StateOK s →
      (∀ c ∈ df, 0 < c.close) → StateOK (df.foldl (stepCandle cfg) s) := by
  intro df
  induction df with
  | nil => intro s hs _; simpa using hs
  | cons c cs ih =>
    intro s hs hdf
    simp only [List.foldl_cons]
    exact ih _ (stepCandle_stateOK cfg s c hcfg hs (hdf c (by simp)))
      (fun c' hc' => hdf c' (by simp [hc']))

/-- Claim C6: in any run whose configuration satisfies CfgOK and whose
usable candles all have positive close prices, every recorded trade has
nonnegative total commissions and records exactly
pnl = (quantity * exit_price - exit_commission)
    - (quantity * entry_price + entry_commission),
where the recorded entry and exit prices are the post-slippage prices. -/
theorem recorded_trades_pnl_exact (cfg : BacktestConfig) (df : List Candle)
    (hcfg : CfgOK cfg) (hdf : ∀ c ∈ df, 0 < c.close) :
    ∀ t ∈ (BacktestEngine.run cfg df).trades,
      0 ≤ t.entry_commission + t.exit_commission ∧
      t.pnl = (t.quantity * t.exit_price - t.exit_commission)
        - (t.quantity * t.entry_price + t.entry_commission) := by
  cases df with
  | nil =>
    intro t ht
    simp [BacktestEngine.run, simulate_trades, create_empty_result] at ht
  | cons c0 rest =>
    rcases hsim : simulate_trades cfg (c0 :: rest) with _ | s
    · simp [simulate_trades] at hsim
    · have hinit : StateOK
          { current_capital := cfg.initial_capital
            current_position := none
            trades := []
            equity_curve := [⟨c0.ts, cfg.initial_capital⟩] } :=
        ⟨hcfg.1, by simp, by simp⟩
      have hfold := foldl_stateOK cfg hcfg (c0 :: rest) _ hinit hdf
      have hsok : StateOK s := by
        simp only [simulate_trades] at hsim
        split at hsim <;> cases hsim
        · exact closePosition_stateOK cfg _ _ _ _ hcfg hfold
            (le_of_lt (hdf _ (List.getLast_mem _)))
        · exact hfold
      intro t ht
      have hteq : (BacktestEngine.run cfg (c0 :: rest)).trades = s.trades := by
        simp [BacktestEngine.run, hsim]
      rw [hteq] at ht
      exact hsok.2.2 t ht

/-- Witness for recorded_trades_pnl_exact: a concrete run producing one
trade (entry at close 10 with quantity 100 and commission 10, force-closed
at the end at close 10 with exit commission 10 and pnl -20). -/
theorem recorded_trades_pnl_exact_witness :
    (0 : ℚ) ≤ (10 : ℚ) + 10 ∧
    (-20 : ℚ) = ((100 : ℚ) * 10 - 10) - ((100 : ℚ) * 10 + 10) :=
  recorded_trades_pnl_exact ⟨1000, 1 / 100, 0, 1, 1 / 2, 1 / 2⟩
    [⟨0, 10, 10, 10, 1⟩, ⟨1, 10, 10, 10, 0⟩]
    (by norm_num [CfgOK])
    (by intro c hc; fin_cases hc <;> norm_num)
    ⟨0, 1, 10, 10, 100, -20, -1 / 50, 1, ExitReason.backtest_end, 10, 10⟩
    (by norm_num [BacktestEngine.run, simulate_trades, stepCandle,
      openPosition, closePosition, currentEquity])

/-- Sizing fields of calculate_position_size when the risk per unit is
nonzero: the scaled branch fires exactly when the unconstrained notional
exceeds the position-size cap, and the approval / reward branching never
alters the sizing fields. -/
theorem calculate_position_size_sizing_fields (limits : RiskLimits)
    (entry_price stop_loss_price portfolio_value : ℚ)
    (risk_pct_arg take_profit_price_arg : Option ℚ)
    (hrpu : ¬ |entry_price - stop_loss_price| = 0) :
    (calculate_position_size limits entry_price stop_loss_price
        portfolio_value risk_pct_arg take_profit_price_arg).quantity
      = (if (portfolio_value * resolvedRiskPct limits risk_pct_arg
              / |entry_price - stop_loss_price|) * entry_price
            > portfolio_value * limits.max_position_size_pct
         then portfolio_value * limits.max_position_size_pct / entry_price
         else portfolio_value * resolvedRiskPct limits risk_pct_arg
              / |entry_price - stop_loss_price|) ∧
    (calculate_position_size limits entry_price stop_loss_price
        portfolio_value risk_pct_arg take_profit_price_arg).position_value
      = (if (portfolio_value * resolvedRiskPct limits risk_pct_arg
              / |entry_price - stop_loss_price|) * entry_price
            > portfolio_value * limits.max_position_size_pct
         then (portfolio_value * limits.max_position_size_pct / entry_price)
              * entry_price
         else (portfolio_value * resolvedRiskPct limits risk_pct_arg
              / |entry_price - stop_loss_price|) * entry_price) ∧
    (calculate_position_size limits entry_price stop_loss_price
        portfolio_value risk_pct_arg take_profit_price_arg).risk_amount
      = (if (portfolio_value * resolvedRiskPct limits risk_pct_arg
              / |entry_price - stop_loss_price|) * entry_price
            > portfolio_value * limits.max_position_size_pct
         then (portfolio_value * limits.max_position_size_pct / entry_price)
              * |entry_price - stop_loss_price|
         else portfolio_value * resolvedRiskPct limits risk_pct_arg) ∧
    (calculate_position_size limits entry_price stop_loss_price
        portfolio_value risk_pct_arg take_profit_price_arg).risk_pct
      = (if (portfolio_value * resolvedRiskPct limits risk_pct_arg
              / |entry_price - stop_loss_price|) * entry_price
            > portfolio_value * limits.max_position_size_pct
         then ((portfolio_value * limits.max_position_size_pct / entry_price)
              * |entry_price - stop_loss_price|) / portfolio_value
         else resolvedRiskPct limits risk_pct_arg) := by
  unfold calculate_position_size
  rw [if_neg hrpu]
  rcases take_profit_price_arg with _ | tp
  · refine ⟨rfl, rfl, rfl, ?_⟩
    dsimp only
    split_ifs <;> rfl
  · dsimp only
    by_cases htp : tp ≠ 0
    · simp only [if_pos htp]
      split_ifs <;> exact ⟨rfl, rfl, rfl, rfl⟩
    · simp only [if_neg htp]
      split_ifs <;>
        first
          | exact ⟨rfl, rfl, rfl, rfl⟩
          | simp

/-- Claim C8: with entry and stop prices distinct, a positive portfolio and
a positive entry price, calculate_position_size returns quantity equal to
min(risk_budget / risk_per_unit, max_position_value / entry_price), its
position notional never exceeds max_position_size_pct * portfolio_value
(exactly, in rational arithmetic), and the returned risk_amount and
risk_pct always record the realized risk of the returned quantity —
quantity * risk_per_unit and its fraction of the portfolio — which is below
the requested risk percentage when the position-size cap binds. -/
theorem calculate_position_size_respects_caps (limits : RiskLimits)
    (entry_price stop_loss_price portfolio_value : ℚ)
    (risk_pct_arg take_profit_price_arg : Option ℚ)
    (hne : entry_price ≠ stop_loss_price) (hpv : 0 < portfolio_value)
    (hep : 0 < entry_price) :
    (calculate_position_size limits entry_price stop_loss_price
        portfolio_value risk_pct_arg take_profit_price_arg).quantity
      = min (portfolio_value * resolvedRiskPct limits risk_pct_arg
            / |entry_price - stop_loss_price|)
          (portfolio_value * limits.max_position_size_pct / entry_price) ∧
    (calculate_position_size limits entry_price stop_loss_price
        portfolio_value risk_pct_arg take_profit_price_arg).position_value
      ≤ limits.max_position_size_pct * portfolio_value ∧
    (calculate_position_size limits entry_price stop_loss_price
        portfolio_value risk_pct_arg take_profit_price_arg).risk_amount
      = (calculate_position_size limits entry_price stop_loss_price
          portfolio_value risk_pct_arg take_profit_price_arg).quantity
        * |entry_price - stop_loss_price| ∧
    (calculate_position_size limits entry_price stop_loss_price
        portfolio_value risk_pct_arg take_profit_price_arg).risk_pct
      = (calculate_position_size limits entry_price stop_loss_price
          portfolio_value risk_pct_arg take_profit_price_arg).risk_amount
        / portfolio_value := by
  have habs : ¬ |entry_price - stop_loss_price| = 0 := by
    simpa [sub_eq_zero] using hne
  obtain ⟨hq, hval, hra, hrp⟩ := calculate_position_size_sizing_fields limits
    entry_price stop_loss_price portfolio_value risk_pct_arg
    take_profit_price_arg habs
  rw [hq, hval, hra, hrp]
  by_cases hsc : (portfolio_value * resolvedRiskPct limits risk_pct_arg
      / |entry_price - stop_loss_price|) * entry_price
      > portfolio_value * limits.max_position_size_pct
  · simp only [if_pos hsc]
    refine ⟨?_, ?_, trivial, trivial⟩
    · exact (min_eq_right ((div_le_iff₀ hep).mpr hsc.le)).symm
    · rw [div_mul_cancel₀ _ hep.ne', mul_comm]
  · simp only [if_neg hsc]
    refine ⟨?_, ?_, ?_, ?_⟩
    · exact (min_eq_left ((le_div_iff₀ hep).mpr (not_lt.mp hsc))).symm
    · rw [mul_comm limits.max_position_size_pct portfolio_value]
      exact not_lt.mp hsc
    · exact (div_mul_cancel₀ _ habs).symm
    · exact (mul_div_cancel_left₀ _ hpv.ne').symm

/-- Witness for calculate_position_size_respects_caps at the spec's
round-trip scenario (entry 50000, stop 49000, portfolio 10000, source
default limits): the position-size cap binds, so quantity is 0.02 and the
realized risk 20 is below the requested 2 percent budget of 200. -/
theorem calculate_position_size_respects_caps_witness :
    (calculate_position_size ⟨1 / 10, 2 / 100, 95 / 100, 10, 1 / 5, 3 / 2,
        1 / 50, 1 / 25⟩ 50000 49000 10000 none none).quantity
      = min ((10000 : ℚ) * resolvedRiskPct ⟨1 / 10, 2 / 100, 95 / 100, 10,
            1 / 5, 3 / 2, 1 / 50, 1 / 25⟩ none / |(50000 : ℚ) - 49000|)
          ((10000 : ℚ) * (1 / 10) / 50000) ∧
    (calculate_position_size ⟨1 / 10, 2 / 100, 95 / 100, 10, 1 / 5, 3 / 2,
        1 / 50, 1 / 25⟩ 50000 49000 10000 none none).position_value
      ≤ (1 / 10) * 10000 ∧
    (calculate_position_size ⟨1 / 10, 2 / 100, 95 / 100, 10, 1 / 5, 3 / 2,
        1 / 50, 1 / 25⟩ 50000 49000 10000 none none).risk_amount
      = (calculate_position_size ⟨1 / 10, 2 / 100, 95 / 100, 10, 1 / 5,
          3 / 2, 1 / 50, 1 / 25⟩ 50000 49000 10000 none none).quantity
        * |(50000 : ℚ) - 49000| ∧
    (calculate_position_size ⟨1 / 10, 2 / 100, 95 / 100, 10, 1 / 5, 3 / 2,
        1 / 50, 1 / 25⟩ 50000 49000 10000 none none).risk_pct
      = (calculate_position_size ⟨1 / 10, 2 / 100, 95 / 100, 10, 1 / 5,
          3 / 2, 1 / 50, 1 / 25⟩ 50000 49000 10000 none none).risk_amount
        / 10000 :=
  calculate_position_size_respects_caps
    ⟨1 / 10, 2 / 100, 95 / 100, 10, 1 / 5, 3 / 2, 1 / 50, 1 / 25⟩
    50000 49000 10000 none none (by norm_num) (by norm_num) (by norm_num)

/-- Claim C9: with a candidate position value and a positive portfolio, the
three rejection checks of assess_portfolio_risk run in source order —
position count at or above the limit, then projected exposure strictly
above max_total_exposure_pct (equality at the limit passes), then candidate
value above the available balance — and the result carries
can_open_position false together with the first failing check's reason, or
can_open_position true and no reason when none fails. -/
theorem assess_portfolio_risk_check_order (limits : RiskLimits)
    (portfolio_value available_balance : ℚ)
    (open_positions : List PositionEntry) (v : ℚ)
    (hpv : 0 < portfolio_value) :
    if (open_positions.length : ℚ) ≥ limits.max_open_positions then
      (assess_portfolio_risk limits portfolio_value available_balance
          open_positions (some v)).can_open_position = false ∧
      (assess_portfolio_risk limits portfolio_value available_balance
          open_positions (some v)).reason
        = some (RiskReason.max_positions limits.max_open_positions)
    else if ((open_positions.map (fun p => p.value.getD 0)).sum + v)
        / portfolio_value > limits.max_total_exposure_pct then
      (assess_portfolio_risk limits portfolio_value available_balance
          open_positions (some v)).can_open_position = false ∧
      (assess_portfolio_risk limits portfolio_value available_balance
          open_positions (some v)).reason
        = some (RiskReason.exposure_limit
            (((open_positions.map (fun p => p.value.getD 0)).sum + v)
              / portfolio_value) limits.max_total_exposure_pct)
    else if v > available_balance then
      (assess_portfolio_risk limits portfolio_value available_balance
          open_positions (some v)).can_open_position = false ∧
      (assess_portfolio_risk limits portfolio_value available_balance
          open_positions (some v)).reason
        = some (RiskReason.insufficient_balance v available_balance)
    else
      (assess_portfolio_risk limits portfolio_value available_balance
          open_positions (some v)).can_open_position = true ∧
      (assess_portfolio_risk limits portfolio_value available_balance
          open_positions (some v)).reason = none := by
  unfold assess_portfolio_risk
  dsimp only
  split_ifs with h1 h2 h3 <;> exact ⟨rfl, rfl⟩

/-- Witness for assess_portfolio_risk_check_order: no open positions, a
candidate well inside every limit, hence approval with no reason. -/
theorem assess_portfolio_risk_check_order_witness :
    (assess_portfolio_risk ⟨1 / 10, 1 / 50, 19 / 20, 10, 1 / 5, 3 / 2,
        1 / 50, 1 / 25⟩ 1000 100 [] (some 50)).can_open_position = true ∧
    (assess_portfolio_risk ⟨1 / 10, 1 / 50, 19 / 20, 10, 1 / 5, 3 / 2,
        1 / 50, 1 / 25⟩ 1000 100 [] (some 50)).reason = none := by
  have h := assess_portfolio_risk_check_order
    ⟨1 / 10, 1 / 50, 19 / 20, 10, 1 / 5, 3 / 2, 1 / 50, 1 / 25⟩
    1000 100 [] 50 (by norm_num)
  norm_num at h
  exact h

/-- Reading a field after setting the same field returns the new value. -/
theorem RLField.get_set_self (l : RiskLimits) (f : RLField) (v : ℚ) :
    RLField.get (RLField.set l f v) f = v := by
  cases f <;> rfl

/-- Reading a field after setting a different field returns the old value. -/
theorem RLField.get_set_ne (l : RiskLimits) (g f : RLField) (v : ℚ)
    (h : g ≠ f) : RLField.get (RLField.set l g v) f = RLField.get l f := by
  cases g <;> cases f <;> first | rfl | exact absurd rfl h

/-- fieldOfName inverts RLField.name. -/
theorem fieldOfName_name (f : RLField) : fieldOfName f.name = some f := by
  cases f <;> rfl

/-- A name that fieldOfName resolves is that field's attribute name. -/
theorem fieldOfName_eq_name {n : String} {g : RLField}
    (h : fieldOfName n = some g) : n = RLField.name g := by
  unfold fieldOfName at h
  split_ifs at h with h1 h2 h3 h4 h5 h6 h7 h8
  · cases h; exact h1
  · cases h; exact h2
  · cases h; exact h3
  · cases h; exact h4
  · cases h; exact h5
  · cases h; exact h6
  · cases h; exact h7
  · cases h; exact h8

/-- Claim C10: update_limits replaces exactly the RiskLimits fields named by
a keyword argument (the last binding for a name wins, matching the fold),
leaves every field not named with its prior value, and a keyword argument
whose name matches no field changes nothing and raises no error. -/
theorem update_limits_by_name (l : RiskLimits)
    (kwargs : List (String × ℚ)) :
    (∀ f : RLField,
      RLField.get (update_limits l kwargs) f
        = (lookupLast kwargs f.name).getD (RLField.get l f)) ∧
    (∀ (n : String) (v : ℚ), fieldOfName n = none →
      update_limits l ((n, v) :: kwargs) = update_limits l kwargs) := by
  constructor
  · intro f
    induction kwargs generalizing l with
    | nil => rfl
    | cons kv ks ih =>
      obtain ⟨k, v⟩ := kv
      have hstep : update_limits l ((k, v) :: ks)
          = update_limits (setattrLimits l k v) ks := rfl
      rw [hstep, ih]
      rcases hlk : lookupLast ks f.name with _ | w
      · by_cases hk : k = f.name
        · subst hk
          simp [lookupLast, hlk, setattrLimits, fieldOfName_name,
            RLField.get_set_self]
        · rcases hfn : fieldOfName k with _ | g
          · simp [lookupLast, hlk, hk, setattrLimits, hfn]
          · have hkg := fieldOfName_eq_name hfn
            have hgf : g ≠ f := by
              rintro rfl
              exact hk hkg
            simp [lookupLast, hlk, hk, setattrLimits, hfn,
              RLField.get_set_ne l g f v hgf]
      · simp [lookupLast, hlk]
  · intro n v hn
    have hskip : setattrLimits l n v = l := by
      simp [setattrLimits, hn]
    show update_limits (setattrLimits l n v) kwargs = update_limits l kwargs
    rw [hskip]

/-- Witness for update_limits_by_name: updating max_drawdown_pct stores the
new value, and an unknown keyword argument is a no-op. -/
theorem update_limits_by_name_witness :
    RLField.get (update_limits ⟨1 / 10, 2 / 100, 95 / 100, 10, 1 / 5, 3 / 2,
        1 / 50, 1 / 25⟩ [("max_drawdown_pct", 1 / 4)])
      RLField.max_drawdown_pct = 1 / 4 ∧
    update_limits ⟨1 / 10, 2 / 100, 95 / 100, 10, 1 / 5, 3 / 2, 1 / 50,
        1 / 25⟩ [("bogus", 5)]
      = update_limits ⟨1 / 10, 2 / 100, 95 / 100, 10, 1 / 5, 3 / 2, 1 / 50,
          1 / 25⟩ [] := by
  constructor
  · have h := (update_limits_by_name
      ⟨1 / 10, 2 / 100, 95 / 100, 10, 1 / 5, 3 / 2, 1 / 50, 1 / 25⟩
      [("max_drawdown_pct", 1 / 4)]).1 RLField.max_drawdown_pct
    simpa [lookupLast, RLField.name] using h
  · exact (update_limits_by_name
      ⟨1 / 10, 2 / 100, 95 / 100, 10, 1 / 5, 3 / 2, 1 / 50, 1 / 25⟩ []).2
      "bogus" 5 rfl
